import Mathlib

/-!
Shallow embedding of `src/register.ts` from not-env-sdk-js.

The SDK replaces `process.env` with a Proxy whose handlers consult
* `notEnvVars` — a `Map<string,string>` built from the fetched response
  (JS `Map.set`: update in place on an existing key, append otherwise), and
* `originalEnv` — a spread copy of `process.env` taken at module load.

JS `Map` and plain-object lookups are modelled as association lists over
`String` with first-match lookup; since every store is built by `assocSet`
(which never duplicates a key) this matches `Map` semantics exactly.
-/

namespace NotEnvSdk

/-- One `{key, value}` pair of the wire response (`interface Variable`). -/
structure Variable where
  key : String
  value : String
deriving DecidableEq, Repr

/-- JS `Map.get` / object property read: first entry with the given key. -/
def assocGet : List (String × String) → String → Option String
  | [], _ => none
  | p :: rest, k => if p.1 = k then some p.2 else assocGet rest k

/-- JS `Map.has` / `in`-operator on a plain object. -/
def assocHas : List (String × String) → String → Bool
  | [], _ => false
  | p :: rest, k => p.1 = k || assocHas rest k

/-- JS `Map.set` / object property write: overwrite the existing entry in
place, else append a new entry at the end (insertion order preserved). -/
def assocSet : List (String × String) → String → String → List (String × String)
  | [], k, v => [(k, v)]
  | p :: rest, k, v => if p.1 = k then (k, v) :: rest else p :: assocSet rest k v

/-- The loop in `fetchVariables`:
`for (const v of data.variables) varMap.set(v.key, v.value)` started from an
empty map. -/
def buildVarMap (vars : List Variable) : List (String × String) :=
  vars.foldl (fun m v => assocSet m v.key v.value) []

/-- Module-level state of `register.ts`: the captured `originalEnv`
(`{ ...process.env }`), the fetched `notEnvVars` (`null` before a successful
fetch), and whether the Proxy has been installed over `process.env`. -/
structure ModuleState where
  originalEnv : List (String × String)
  notEnvVars : Option (List (String × String))
  installed : Bool
deriving Repr

/-- The Proxy `get` trap (`handler.get`). -/
def handlerGet (s : ModuleState) (prop : String) : Option String :=
  if prop = "NOT_ENV_URL" ∨ prop = "NOT_ENV_API_KEY" then
    assocGet s.originalEnv prop
  else
    match s.notEnvVars with
    | some m => if assocHas m prop then assocGet m prop else none
    | none => none

/-- The Proxy `set` trap (`handler.set`): returns the updated module state
together with the Boolean the trap reports to the runtime. -/
def handlerSet (s : ModuleState) (prop value : String) : ModuleState × Bool :=
  if prop = "NOT_ENV_URL" ∨ prop = "NOT_ENV_API_KEY" then
    ({ s with originalEnv := assocSet s.originalEnv prop value }, true)
  else
    (s, false)

/-- The Proxy `has` trap (`handler.has`). -/
def handlerHas (s : ModuleState) (prop : String) : Bool :=
  if prop = "NOT_ENV_URL" ∨ prop = "NOT_ENV_API_KEY" then
    assocHas s.originalEnv prop
  else
    match s.notEnvVars with
    | some m => assocHas m prop
    | none => false

/-- The Proxy `ownKeys` trap (`handler.ownKeys`): keys of `notEnvVars` in
insertion order, then `NOT_ENV_URL` and `NOT_ENV_API_KEY` whenever present in
`originalEnv`. -/
def handlerOwnKeys (s : ModuleState) : List String :=
  (match s.notEnvVars with
   | some m => m.map Prod.fst
   | none => []) ++
  (if assocHas s.originalEnv "NOT_ENV_URL" then ["NOT_ENV_URL"] else []) ++
  (if assocHas s.originalEnv "NOT_ENV_API_KEY" then ["NOT_ENV_API_KEY"] else [])

/-- JS truthiness of `process.env` reads: `undefined` and the empty string
are falsy, every other string is truthy. -/
def truthy : Option String → Bool
  | none => false
  | some s => !(s = "")

/-- A read of `process.env[prop]`: through the Proxy once installed, directly
from the captured environment before installation (`register()` runs at
module load, so the pre-install environment is exactly `originalEnv`). -/
def processEnvRead (s : ModuleState) (prop : String) : Option String :=
  if s.installed then handlerGet s prop else assocGet s.originalEnv prop

/-- The parse outcome of a response body, as `fetchVariables` observes it:
either `JSON.parse` throws (`malformed`, carrying the raw body and the parse
error's message), or it yields an object whose `error`, `message` and
`variables` fields may each be absent. -/
inductive JsonBody where
  | malformed (raw : String) (parseErrMsg : String)
  | object (errField : Option String) (msgField : Option String)
      (variablesField : Option (List Variable))
deriving Repr

/-- JS `a || b` for a string field against a default: absent or empty
(falsy) falls back to the default. -/
def jsOrElse (o : Option String) (d : String) : String :=
  match o with
  | some s => if s = "" then d else s
  | none => d

/-- Response handling of `fetchVariables` (`register.ts` lines 31-64):
non-200 rejects with `Failed to fetch variables: ...`, a 200 whose body does
not yield an iterable `variables` list rejects with
`Failed to parse response: ...`, and a well-formed 200 resolves the map. -/
def handleResponse (statusCode : Nat) (body : JsonBody) :
    Except String (List (String × String)) :=
  if statusCode ≠ 200 then
    match body with
    | .object errField msgField _ =>
        .error ("Failed to fetch variables: " ++ jsOrElse errField (toString statusCode)
          ++ " - " ++ jsOrElse msgField "")
    | .malformed _ _ =>
        .error ("Failed to fetch variables: HTTP " ++ toString statusCode)
  else
    match body with
    | .object _ _ (some vs) => .ok (buildVarMap vs)
    | .object _ _ none =>
        .error ("Failed to parse response: " ++ "data.variables is not iterable")
    | .malformed _ parseErrMsg => .error ("Failed to parse response: " ++ parseErrMsg)

/-- Outcome of the module-load bootstrap (`register().catch(...)`): either the
Proxy is installed, or one diagnostic line is written to the error stream
(`console.error`) and the process exits with the given status. -/
inductive RegisterOutcome where
  | fatal (diagnostic : String) (exitCode : Nat)
  | ok (s : ModuleState)
deriving Repr

/-- The body of `register()` (`register.ts` lines 82-163) as one step: read the
two bootstrap coordinates from `process.env`, throw if either is falsy,
otherwise take the fetch's result (the network is external, so the step is
parameterised by it), store it in `notEnvVars` and install the Proxy. -/
def registerBody (s : ModuleState)
    (fetchResult : Except String (List (String × String))) :
    Except String ModuleState :=
  let url := processEnvRead s "NOT_ENV_URL"
  let apiKey := processEnvRead s "NOT_ENV_API_KEY"
  if !(truthy url) then
    .error "NOT_ENV_URL environment variable is required"
  else if !(truthy apiKey) then
    .error "NOT_ENV_API_KEY environment variable is required"
  else
    match fetchResult with
    | .error e => .error e
    | .ok m => .ok { s with notEnvVars := some m, installed := true }

/-- The module-level invocation `register().catch(error => { console.error(...);
process.exit(1); })`: a rejection becomes a diagnostic on the error stream and
exit status 1. -/
def registerStep (s : ModuleState)
    (fetchResult : Except String (List (String × String))) : RegisterOutcome :=
  match registerBody s fetchResult with
  | .error e => .fatal ("Failed to initialize not-env-sdk: " ++ e) 1
  | .ok s' => .ok s'

/-- Value of the last occurrence of a key in the wire list, stated the way the
spec states last-write-wins; compared with `buildVarMap` below. -/
def lastValue : List Variable → String → Option String
  | [], _ => none
  | v :: rest, k =>
    match lastValue rest k with
    | some w => some w
    | none => if v.key = k then some v.value else none

end NotEnvSdk

namespace NotEnvSdk

theorem assocGet_assocSet (m : List (String × String)) (k v j : String) :
    assocGet (assocSet m k v) j = if k = j then some v else assocGet m j := by
  induction m with
  | nil => rfl
  | cons p rest ih =>
    by_cases hpk : p.1 = k
    · by_cases hkj : k = j <;> simp [assocSet, assocGet, hpk, hkj]
    · by_cases hpj : p.1 = j
      · have hkj : ¬ k = j := fun h => hpk (hpj.trans h.symm)
        have hjk : ¬ j = k := fun h => hkj h.symm
        simp [assocSet, assocGet, hpk, hpj, hkj, hjk]
      · simp [assocSet, assocGet, hpk, hpj, ih]

theorem assocGet_eq_none_of_not_has (m : List (String × String)) (k : String)
    (h : assocHas m k = false) : assocGet m k = none := by
  induction m with
  | nil => rfl
  | cons p rest ih =>
    simp only [assocHas, Bool.or_eq_false_iff, decide_eq_false_iff_not] at h
    simp [assocGet, h.1, ih h.2]

theorem assocHas_iff_mem_keys (m : List (String × String)) (k : String) :
    assocHas m k = true ↔ k ∈ m.map Prod.fst := by
  induction m with
  | nil => simp [assocHas]
  | cons p rest ih =>
    simp only [assocHas, Bool.or_eq_true, decide_eq_true_eq, List.map_cons, List.mem_cons, ih]
    exact or_congr eq_comm Iff.rfl

theorem assocSet_keys (m : List (String × String)) (k v : String) :
    (assocSet m k v).map Prod.fst =
      if assocHas m k then m.map Prod.fst else m.map Prod.fst ++ [k] := by
  induction m with
  | nil => simp [assocSet, assocHas]
  | cons p rest ih =>
    by_cases hpk : p.1 = k
    · simp [assocSet, assocHas, hpk]
    · by_cases h : assocHas rest k <;> simp [assocSet, assocHas, hpk, ih, h]

theorem assocSet_keys_nodup (m : List (String × String)) (k v : String)
    (h : (m.map Prod.fst).Nodup) : ((assocSet m k v).map Prod.fst).Nodup := by
  rw [assocSet_keys]
  by_cases hk : assocHas m k
  · simp [hk, h]
  · have hnm : k ∉ m.map Prod.fst := fun hm => hk ((assocHas_iff_mem_keys m k).mpr hm)
    simp [hk, List.nodup_append, h, hnm]

theorem buildVarMap_keys_nodup (vars : List Variable) :
    ((buildVarMap vars).map Prod.fst).Nodup := by
  have H : ∀ (l : List Variable) (m : List (String × String)),
      (m.map Prod.fst).Nodup →
      ((l.foldl (fun acc v => assocSet acc v.key v.value) m).map Prod.fst).Nodup := by
    intro l
    induction l with
    | nil => intro m h; simpa using h
    | cons v rest ih => intro m h; exact ih _ (assocSet_keys_nodup m v.key v.value h)
  simpa [buildVarMap] using H vars [] (by simp)

theorem assocGet_foldl_set (vars : List Variable) (m : List (String × String)) (k : String) :
    assocGet (vars.foldl (fun acc v => assocSet acc v.key v.value) m) k =
      match lastValue vars k with
      | some w => some w
      | none => assocGet m k := by
  induction vars generalizing m with
  | nil => rfl
  | cons v rest ih =>
    rw [List.foldl_cons, ih]
    cases hlv : lastValue rest k with
    | some w => simp [lastValue, hlv]
    | none =>
      rw [assocGet_assocSet]
      by_cases hv : v.key = k <;> simp [lastValue, hlv, hv]

theorem fetchMsg_ne_parseMsg (x y : String) :
    ("Failed to fetch variables: " ++ x) ≠ ("Failed to parse response: " ++ y) := by
  intro h
  have hd := congrArg String.data h
  rw [String.data_append, String.data_append] at hd
  have h10 := congrArg (fun l => l[10]?) hd
  simp only [] at h10
  rw [List.getElem?_append, List.getElem?_append, if_pos (by decide), if_pos (by decide)] at h10
  exact absurd h10 (by decide)

end NotEnvSdk

namespace NotEnvSdk

/-- C1: after installation the `get` trap resolves every non-preserved key
against the Variable Store alone — the store's value when present, `none`
(JS `undefined`) otherwise — and its result does not depend on the captured
OS environment in any way. -/
theorem c1_hermetic_read (s : ModuleState) (store : List (String × String)) (k : String)
    (hs : s.notEnvVars = some store)
    (h1 : k ≠ "NOT_ENV_URL") (h2 : k ≠ "NOT_ENV_API_KEY") :
    handlerGet s k = assocGet store k ∧
    ∀ osEnv : List (String × String),
      handlerGet { s with originalEnv := osEnv } k = assocGet store k := by
  have key : ∀ t : ModuleState, t.notEnvVars = some store → handlerGet t k = assocGet store k := by
    intro t ht
    unfold handlerGet
    rw [if_neg (not_or.mpr ⟨h1, h2⟩), ht]
    by_cases h : assocHas store k
    · simp [h]
    · simp [h, assocGet_eq_none_of_not_has store k (by simpa using h)]
  exact ⟨key s hs, fun osEnv => key _ hs⟩

/-- Witness for C1 at a concrete state: a key shadowed in the OS environment
still reads from the store. -/
theorem c1_witness :
    handlerGet ⟨[("NOT_ENV_URL", "u"), ("DB_HOST", "os")], some [("DB_HOST", "store")], true⟩
        "DB_HOST" = some "store" :=
  ((c1_hermetic_read _ [("DB_HOST", "store")] "DB_HOST" rfl (by decide) (by decide)).1).trans
    (by decide)

/-- C2: the `get` trap resolves each Preserved Key against `originalEnv`,
whatever the Variable Store holds — also under a same-named store entry. -/
theorem c2_preserved_precedence (s : ModuleState) (k : String)
    (h : k = "NOT_ENV_URL" ∨ k = "NOT_ENV_API_KEY") :
    handlerGet s k = assocGet s.originalEnv k ∧
    ∀ store : List (String × String),
      handlerGet { s with notEnvVars := some store } k = assocGet s.originalEnv k := by
  constructor
  · unfold handlerGet; rw [if_pos h]
  · intro store; unfold handlerGet; rw [if_pos h]

/-- Witness for C2 at a concrete state: a store entry named `NOT_ENV_URL` is
never returned for that key. -/
theorem c2_witness :
    handlerGet ⟨[("NOT_ENV_URL", "http://os")], some [("NOT_ENV_URL", "shadow")], true⟩
        "NOT_ENV_URL" = some "http://os" :=
  ((c2_preserved_precedence _ "NOT_ENV_URL" (Or.inl rfl)).1).trans (by decide)

/-- C3: the `set` trap on a non-preserved key reports failure and leaves the
module state — hence every subsequent read — exactly as it was. -/
theorem c3_write_nonpreserved_rejected (s : ModuleState) (k v : String)
    (h1 : k ≠ "NOT_ENV_URL") (h2 : k ≠ "NOT_ENV_API_KEY") :
    (handlerSet s k v).2 = false ∧ (handlerSet s k v).1 = s ∧
    ∀ j : String, handlerGet (handlerSet s k v).1 j = handlerGet s j := by
  unfold handlerSet
  rw [if_neg (not_or.mpr ⟨h1, h2⟩)]
  exact ⟨rfl, rfl, fun j => rfl⟩

/-- Witness for C3 at a concrete state and write. -/
theorem c3_witness :
    (handlerSet ⟨[("NOT_ENV_URL", "u")], some [("DB_HOST", "x")], true⟩ "DB_HOST" "evil").2
        = false ∧
    handlerGet (handlerSet ⟨[("NOT_ENV_URL", "u")], some [("DB_HOST", "x")], true⟩
        "DB_HOST" "evil").1 "DB_HOST"
      = handlerGet ⟨[("NOT_ENV_URL", "u")], some [("DB_HOST", "x")], true⟩ "DB_HOST" :=
  ⟨(c3_write_nonpreserved_rejected _ "DB_HOST" "evil" (by decide) (by decide)).1,
   (c3_write_nonpreserved_rejected _ "DB_HOST" "evil" (by decide) (by decide)).2.2 "DB_HOST"⟩

/-- C4: `buildVarMap` maps every key to the value of its last occurrence in
the response list (JS `Map.set` is last-write-wins), and on the spec's
concrete duplicate-key example the later value wins. -/
theorem c4_last_write_wins :
    (∀ (vars : List Variable) (k : String),
        assocGet (buildVarMap vars) k = lastValue vars k) ∧
    assocGet (buildVarMap [⟨"DB_HOST", "localhost"⟩, ⟨"DB_HOST", "other"⟩]) "DB_HOST"
      = some "other" := by
  constructor
  · intro vars k
    rw [buildVarMap, assocGet_foldl_set]
    cases lastValue vars k <;> rfl
  · decide

/-- C8: the `set` trap on a Preserved Key reports success and the immediately
following read of that key returns the written value. -/
theorem c8_preserved_write_roundtrip (s : ModuleState) (k v : String)
    (h : k = "NOT_ENV_URL" ∨ k = "NOT_ENV_API_KEY") :
    (handlerSet s k v).2 = true ∧
    handlerGet (handlerSet s k v).1 k = some v := by
  have hset : handlerSet s k v = ({ s with originalEnv := assocSet s.originalEnv k v }, true) := by
    unfold handlerSet; rw [if_pos h]
  rw [hset]
  refine ⟨rfl, ?_⟩
  unfold handlerGet
  rw [if_pos h]
  simp [assocGet_assocSet]

/-- Witness for C8 at a concrete state: updating `NOT_ENV_URL` round-trips. -/
theorem c8_witness :
    (handlerSet ⟨[("NOT_ENV_URL", "old")], some [], true⟩ "NOT_ENV_URL" "new-url").2 = true ∧
    handlerGet (handlerSet ⟨[("NOT_ENV_URL", "old")], some [], true⟩
        "NOT_ENV_URL" "new-url").1 "NOT_ENV_URL" = some "new-url" :=
  c8_preserved_write_roundtrip ⟨[("NOT_ENV_URL", "old")], some [], true⟩ "NOT_ENV_URL" "new-url"
    (Or.inl rfl)

end NotEnvSdk

namespace NotEnvSdk

/-- Counterexample to C5: when the fetched store itself contains
`NOT_ENV_URL` and the captured environment also holds it (the normal case
after a successful bootstrap), the `ownKeys` trap lists that key twice. -/
theorem c5_counterexample :
    handlerOwnKeys ⟨[("NOT_ENV_URL", "u"), ("NOT_ENV_API_KEY", "k")],
        some (buildVarMap [⟨"NOT_ENV_URL", "x"⟩]), true⟩ =
      ["NOT_ENV_URL", "NOT_ENV_URL", "NOT_ENV_API_KEY"] ∧
    ¬ (handlerOwnKeys ⟨[("NOT_ENV_URL", "u"), ("NOT_ENV_API_KEY", "k")],
        some (buildVarMap [⟨"NOT_ENV_URL", "x"⟩]), true⟩).Nodup :=
  ⟨rfl, by decide⟩

/-- C5 (amended): the `ownKeys` trap yields the Variable Store's keys in
fetch order followed by whichever Preserved Keys are present in the captured
environment; the result is duplicate-free whenever the store contains neither
Preserved Key (when it does and the captured environment also holds that key,
the key is listed twice, as the counterexample shows). -/
theorem c5_enumerate_amended (s : ModuleState) (l : List Variable)
    (hs : s.notEnvVars = some (buildVarMap l)) :
    handlerOwnKeys s =
      (buildVarMap l).map Prod.fst ++
        (if assocHas s.originalEnv "NOT_ENV_URL" then ["NOT_ENV_URL"] else []) ++
        (if assocHas s.originalEnv "NOT_ENV_API_KEY" then ["NOT_ENV_API_KEY"] else []) ∧
    (assocHas (buildVarMap l) "NOT_ENV_URL" = false →
      assocHas (buildVarMap l) "NOT_ENV_API_KEY" = false →
      (handlerOwnKeys s).Nodup) := by
  have hkeys := buildVarMap_keys_nodup l
  constructor
  · unfold handlerOwnKeys; rw [hs]
  · intro hu hk
    have hul : "NOT_ENV_URL" ∉ (buildVarMap l).map Prod.fst := by
      intro hm; rw [← assocHas_iff_mem_keys] at hm; rw [hu] at hm; cases hm
    have hkl : "NOT_ENV_API_KEY" ∉ (buildVarMap l).map Prod.fst := by
      intro hm; rw [← assocHas_iff_mem_keys] at hm; rw [hk] at hm; cases hm
    have hne : ("NOT_ENV_URL" : String) ≠ "NOT_ENV_API_KEY" := by decide
    have hpair : ∀ ⦃a : String⦄ (x : String), (a, x) ∈ buildVarMap l →
        ¬ a = "NOT_ENV_URL" ∧ ¬ a = "NOT_ENV_API_KEY" := by
      intro a x hax
      have ham : a ∈ (buildVarMap l).map Prod.fst := List.mem_map_of_mem Prod.fst hax
      exact ⟨fun h => hul (h ▸ ham), fun h => hkl (h ▸ ham)⟩
    unfold handlerOwnKeys
    rw [hs]
    by_cases h1 : assocHas s.originalEnv "NOT_ENV_URL" <;>
      by_cases h2 : assocHas s.originalEnv "NOT_ENV_API_KEY" <;>
        simp [h1, h2, List.nodup_append, List.Disjoint, hkeys, hul, hkl, hne]
    · exact hpair
    · intro a x hax
      exact (hpair x hax).1
    · intro a x hax
      exact (hpair x hax).2

/-- Witness for the amended C5 at a concrete state whose store holds no
Preserved Key: enumeration is store keys then present Preserved Keys, without
duplicates. -/
theorem c5_witness :
    handlerOwnKeys ⟨[("NOT_ENV_URL", "u"), ("NOT_ENV_API_KEY", "k")],
        some (buildVarMap [⟨"DB_HOST", "x"⟩]), true⟩ =
      ["DB_HOST", "NOT_ENV_URL", "NOT_ENV_API_KEY"] ∧
    (handlerOwnKeys ⟨[("NOT_ENV_URL", "u"), ("NOT_ENV_API_KEY", "k")],
        some (buildVarMap [⟨"DB_HOST", "x"⟩]), true⟩).Nodup :=
  ⟨((c5_enumerate_amended _ [⟨"DB_HOST", "x"⟩] rfl).1).trans (by decide),
   (c5_enumerate_amended _ [⟨"DB_HOST", "x"⟩] rfl).2 (by decide) (by decide)⟩

end NotEnvSdk

namespace NotEnvSdk

/-- C6: a missing service address or credential makes the bootstrap fatal for
every possible network outcome (so before any network attempt matters), each
with its own diagnostic naming the coordinate, written to the error stream
with exit status 1; the two diagnostics are distinct. -/
theorem c6_missing_coordinate_fatal (s : ModuleState)
    (fetchResult : Except String (List (String × String))) :
    (truthy (processEnvRead s "NOT_ENV_URL") = false →
      registerStep s fetchResult =
        .fatal ("Failed to initialize not-env-sdk: " ++
          "NOT_ENV_URL environment variable is required") 1) ∧
    (truthy (processEnvRead s "NOT_ENV_URL") = true →
      truthy (processEnvRead s "NOT_ENV_API_KEY") = false →
      registerStep s fetchResult =
        .fatal ("Failed to initialize not-env-sdk: " ++
          "NOT_ENV_API_KEY environment variable is required") 1) ∧
    ("Failed to initialize not-env-sdk: " ++ "NOT_ENV_URL environment variable is required") ≠
      ("Failed to initialize not-env-sdk: " ++
        "NOT_ENV_API_KEY environment variable is required") := by
  refine ⟨?_, ?_, by decide⟩
  · intro h
    simp [registerStep, registerBody, h]
  · intro hu hk
    simp [registerStep, registerBody, hu, hk]

/-- Witness for C6 at two concrete environments, one per missing coordinate. -/
theorem c6_witness :
    registerStep ⟨[], none, false⟩ (.ok []) =
      .fatal ("Failed to initialize not-env-sdk: " ++
        "NOT_ENV_URL environment variable is required") 1 ∧
    registerStep ⟨[("NOT_ENV_URL", "http://x")], none, false⟩ (.ok []) =
      .fatal ("Failed to initialize not-env-sdk: " ++
        "NOT_ENV_API_KEY environment variable is required") 1 :=
  ⟨(c6_missing_coordinate_fatal ⟨[], none, false⟩ (.ok [])).1 (by decide),
   (c6_missing_coordinate_fatal ⟨[("NOT_ENV_URL", "http://x")], none, false⟩ (.ok [])).2.1
     (by decide) (by decide)⟩

/-- Counterexample to C7: on a non-200 response whose body parses as JSON
with a truthy `error` field, the rejection carries that field and the
`message` field but not the status code; and on a non-200 response whose body
is not JSON, the rejection carries only `HTTP <status>`, not the raw body. -/
theorem c7_counterexample :
    handleResponse 401 (.object (some "Unauthorized") (some "bad key") none) =
      .error "Failed to fetch variables: Unauthorized - bad key" ∧
    ¬ List.IsInfix "401".data "Failed to fetch variables: Unauthorized - bad key".data ∧
    handleResponse 500 (.malformed "raw body text" "Unexpected token r") =
      .error "Failed to fetch variables: HTTP 500" ∧
    ¬ List.IsInfix "raw body text".data "Failed to fetch variables: HTTP 500".data :=
  ⟨rfl, by decide, rfl, by decide⟩

/-- C7 (amended): a 200 response with an unparseable body fails as a parse
failure (`Failed to parse response: ...`); a non-200 response fails as a
protocol failure carrying, when the body parses as JSON, its error field
(falling back to the status code when that field is falsy) and its message
field, and otherwise only `HTTP <status>`; no protocol-failure message ever
equals a parse-failure message. -/
theorem c7_failure_classification (code : Nat) (raw pmsg : String)
    (e msgF : Option String) (vs : Option (List Variable))
    (h : code ≠ 200) :
    handleResponse 200 (.malformed raw pmsg) =
      .error ("Failed to parse response: " ++ pmsg) ∧
    handleResponse code (.malformed raw pmsg) =
      .error ("Failed to fetch variables: HTTP " ++ toString code) ∧
    handleResponse code (.object e msgF vs) =
      .error ("Failed to fetch variables: " ++ jsOrElse e (toString code)
        ++ " - " ++ jsOrElse msgF "") ∧
    ∀ x y : String,
      ("Failed to fetch variables: " ++ x) ≠ ("Failed to parse response: " ++ y) := by
  refine ⟨rfl, ?_, ?_, fetchMsg_ne_parseMsg⟩
  · unfold handleResponse
    rw [if_pos h]
  · unfold handleResponse
    rw [if_pos h]

/-- Witness for the amended C7 at concrete inputs: a 503 with an empty JSON
object body and a 200 with a malformed body. -/
theorem c7_witness :
    handleResponse 200 (.malformed "not json" "Unexpected token") =
      .error ("Failed to parse response: " ++ "Unexpected token") ∧
    handleResponse 503 (.object none none none) =
      .error ("Failed to fetch variables: " ++ jsOrElse none (toString 503)
        ++ " - " ++ jsOrElse none "") :=
  ⟨(c7_failure_classification 503 "not json" "Unexpected token" none none none
      (by decide)).1,
   (c7_failure_classification 503 "not json" "Unexpected token" none none none
      (by decide)).2.2.1⟩

end NotEnvSdk

namespace NotEnvSdk

/-- Counterexample to C9: `register` has no installed-state guard, so invoking
it again on an installed state re-runs the fetch and reinstalls; when the
second fetch returns a different mapping the observable namespace changes. -/
theorem c9_counterexample :
    registerStep ⟨[("NOT_ENV_URL", "http://x"), ("NOT_ENV_API_KEY", "k")],
        some [("A", "1")], true⟩ (.ok [("A", "2")]) =
      .ok ⟨[("NOT_ENV_URL", "http://x"), ("NOT_ENV_API_KEY", "k")], some [("A", "2")], true⟩ ∧
    handlerGet ⟨[("NOT_ENV_URL", "http://x"), ("NOT_ENV_API_KEY", "k")],
        some [("A", "2")], true⟩ "A" ≠
      handlerGet ⟨[("NOT_ENV_URL", "http://x"), ("NOT_ENV_API_KEY", "k")],
        some [("A", "1")], true⟩ "A" :=
  ⟨rfl, by decide⟩

/-- C9 (amended): re-entry into `register` after installation is not guarded:
whenever both bootstrap coordinates still read truthy, a second invocation
consumes a second fetch result and installs it, so the store afterwards is the
second fetch's mapping (the namespace is unchanged only if that mapping equals
the first). -/
theorem c9_reentry_refetches (s : ModuleState) (m : List (String × String))
    (_hinst : s.installed = true)
    (hu : truthy (processEnvRead s "NOT_ENV_URL") = true)
    (hk : truthy (processEnvRead s "NOT_ENV_API_KEY") = true) :
    registerStep s (.ok m) = .ok { s with notEnvVars := some m, installed := true } := by
  simp [registerStep, registerBody, hu, hk]

/-- Witness for the amended C9 at a concrete installed state: the second
fetch's mapping replaces the first. -/
theorem c9_witness :
    registerStep ⟨[("NOT_ENV_URL", "http://x"), ("NOT_ENV_API_KEY", "k")],
        some [("B", "1")], true⟩ (.ok [("B", "2")]) =
      .ok ⟨[("NOT_ENV_URL", "http://x"), ("NOT_ENV_API_KEY", "k")],
        some [("B", "2")], true⟩ :=
  c9_reentry_refetches ⟨[("NOT_ENV_URL", "http://x"), ("NOT_ENV_API_KEY", "k")],
    some [("B", "1")], true⟩ [("B", "2")] rfl (by decide) (by decide)

/-- C10: a Preserved Key that is present in the OS environment with the empty
string as value is treated as missing (the guard tests truthiness, not
presence): the bootstrap fails with that coordinate's required-variable
diagnostic and exit status 1, for every possible network outcome. -/
theorem c10_empty_coordinate_treated_missing (s : ModuleState)
    (fetchResult : Except String (List (String × String)))
    (hinst : s.installed = false) :
    (assocGet s.originalEnv "NOT_ENV_URL" = some "" →
      registerStep s fetchResult =
        .fatal ("Failed to initialize not-env-sdk: " ++
          "NOT_ENV_URL environment variable is required") 1) ∧
    ((∃ u, assocGet s.originalEnv "NOT_ENV_URL" = some u ∧ u ≠ "") →
      assocGet s.originalEnv "NOT_ENV_API_KEY" = some "" →
      registerStep s fetchResult =
        .fatal ("Failed to initialize not-env-sdk: " ++
          "NOT_ENV_API_KEY environment variable is required") 1) := by
  constructor
  · intro h
    have hu : truthy (processEnvRead s "NOT_ENV_URL") = false := by
      simp [processEnvRead, hinst, h, truthy]
    simp [registerStep, registerBody, hu]
  · rintro ⟨u, hu, hune⟩ hk
    have h1 : truthy (processEnvRead s "NOT_ENV_URL") = true := by
      simp [processEnvRead, hinst, hu, truthy, hune]
    have h2 : truthy (processEnvRead s "NOT_ENV_API_KEY") = false := by
      simp [processEnvRead, hinst, hk, truthy]
    simp [registerStep, registerBody, h1, h2]

/-- Witness for C10 at concrete environments where the coordinate keys are
present but hold the empty string. -/
theorem c10_witness :
    registerStep ⟨[("NOT_ENV_URL", "")], none, false⟩ (.ok [("A", "1")]) =
      .fatal ("Failed to initialize not-env-sdk: " ++
        "NOT_ENV_URL environment variable is required") 1 ∧
    registerStep ⟨[("NOT_ENV_URL", "http://x"), ("NOT_ENV_API_KEY", "")], none, false⟩
        (.ok [("A", "1")]) =
      .fatal ("Failed to initialize not-env-sdk: " ++
        "NOT_ENV_API_KEY environment variable is required") 1 :=
  ⟨(c10_empty_coordinate_treated_missing ⟨[("NOT_ENV_URL", "")], none, false⟩
      (.ok [("A", "1")]) rfl).1 (by decide),
   (c10_empty_coordinate_treated_missing
      ⟨[("NOT_ENV_URL", "http://x"), ("NOT_ENV_API_KEY", "")], none, false⟩
      (.ok [("A", "1")]) rfl).2 ⟨"http://x", by decide, by decide⟩ (by decide)⟩

end NotEnvSdk
